import Mathlib

/-
Verification of the Companies House scraper
(src/get_companies_house_companies.py) against its specification.

Embedding conventions:
- Python str is modelled as List Char (the function pystr converts a Lean
  string literal), so that every operation is structurally recursive and
  kernel-evaluable.
- Python s.split(sep) for a non-empty separator is modelled by pySplit,
  Python substring membership (the in operator) by pyContains, and
  str.replace by pyReplace.
- The HTML page is modelled at the level the scraper reads it: a search
  result row (tr.govuk-table__row) is a ResultRow holding the text of its
  link (a.govuk-link) and of the six list items of its ul.govuk-list, per
  the fixed layout documented in the source (lines 173-182); the SIC
  reference page is the list of its table rows, each the list of the text
  of its td cells.
- Exceptions are modelled with Except PyError; PyError distinguishes the
  ValueError raised by an Enum constructor on an unknown value (the spec
  taxonomy calls it UnknownEnumValue), the ValueError raised by
  datetime.strptime on unparsable text, the IndexError of an out-of-range
  list index, and the AttributeError raised by dereferencing None.
- datetime.strptime(t, "%d %B %Y").date() is the one external library call
  that is modelled rather than translated: strptime_d_B_Y accepts a 1-2
  digit day, a full English month name matched case-insensitively, and a
  4 digit year, and checks calendar validity, following CPython.
-/

deriving instance DecidableEq for Except

/-- Convert a Lean string literal to the List Char model of a Python str. -/
def pystr (s : String) : List Char := s.data

/-- Does the first list occur as a leading segment of the second? -/
def listStartsWith : List Char → List Char → Bool
  | [], _ => true
  | _ :: _, [] => false
  | a :: as, b :: bs => a == b && listStartsWith as bs

/-- Python substring membership: needle in hay. The empty needle is a
substring of everything, as in Python. -/
def pyContains (needle : List Char) : List Char → Bool
  | [] => needle.isEmpty
  | c :: rest => listStartsWith needle (c :: rest) || pyContains needle rest

/-- Worker for pySplit; the Nat fuel keeps the recursion structural so that
the kernel can evaluate it. It is always called with more fuel than the
length of the scanned list, so the fuel never runs out. -/
def pySplitGo : Nat → List Char → List Char → List Char → List (List Char)
  | _, _, [], acc => [acc.reverse]
  | 0, _, s, acc => [acc.reverse ++ s]
  | fuel + 1, sep, c :: rest, acc =>
    if listStartsWith sep (c :: rest) then
      acc.reverse :: pySplitGo fuel sep ((c :: rest).drop sep.length) []
    else
      pySplitGo fuel sep rest (c :: acc)

/-- Python s.split(sep): split on every non-overlapping occurrence of sep,
scanning left to right, keeping empty pieces. The source only ever splits
on the non-empty separators " - ", " on ", ", ", " " and "(". -/
def pySplit (sep s : List Char) : List (List Char) :=
  if sep.isEmpty then [s] else pySplitGo (s.length + 1) sep s []

/-- Python s.replace(old, new) for a non-empty old, via split and join. -/
def pyReplace (s old new : List Char) : List Char :=
  List.intercalate new (pySplit old s)

/-- Parse a non-empty all-digit string as a Nat. -/
def digitsToNat? (s : List Char) : Option Nat :=
  if s.isEmpty || !(s.all Char.isDigit) then none
  else some (s.foldl (fun n c => 10 * n + (c.toNat - 48)) 0)

/-- Lower-case an ASCII letter, leaving every other character unchanged. -/
def asciiLower (c : Char) : Char :=
  if 65 ≤ c.toNat ∧ c.toNat ≤ 90 then Char.ofNat (c.toNat + 32) else c

/-- The errors the modelled Python code can raise. -/
inductive PyError where
  /-- ValueError from an Enum constructor: the display string is not the
  value of any member (the spec taxonomy calls this UnknownEnumValue). -/
  | unknownEnumValue (v : List Char)
  /-- ValueError from datetime.strptime: the text does not match the
  day-month-year format (the spec taxonomy calls this DateParseFailure). -/
  | dateParseError (t : List Char)
  /-- IndexError: list index out of range. -/
  | indexError
  /-- AttributeError: None has no attribute (here: status.value on None). -/
  | noneAttrError
deriving Repr, DecidableEq

/-- A calendar date, as produced by datetime.date. -/
structure PyDate where
  year : Nat
  month : Nat
  day : Nat
deriving Repr, DecidableEq

/-- Month number of a lower-cased full English month name. -/
def monthNumber : List Char → Option Nat
  | s =>
    if s = pystr "january" then some 1
    else if s = pystr "february" then some 2
    else if s = pystr "march" then some 3
    else if s = pystr "april" then some 4
    else if s = pystr "may" then some 5
    else if s = pystr "june" then some 6
    else if s = pystr "july" then some 7
    else if s = pystr "august" then some 8
    else if s = pystr "september" then some 9
    else if s = pystr "october" then some 10
    else if s = pystr "november" then some 11
    else if s = pystr "december" then some 12
    else none

/-- Gregorian leap year rule. -/
def isLeap (y : Nat) : Bool :=
  (y % 4 == 0 && y % 100 != 0) || y % 400 == 0

/-- Number of days in a month of a given year. -/
def daysInMonth (y m : Nat) : Nat :=
  if m = 2 then (if isLeap y then 29 else 28)
  else if m = 4 ∨ m = 6 ∨ m = 9 ∨ m = 11 then 30
  else 31

/-- Model of the external call datetime.strptime(t, "%d %B %Y").date():
a 1-2 digit day, a space, a full English month name (case-insensitive),
a space, and a 4 digit year; the day must exist in that month of that
year and the year must be at least 1. Any other text raises ValueError. -/
def strptime_d_B_Y (t : List Char) : Except PyError PyDate :=
  match pySplit (pystr " ") t with
  | [d, m, y] =>
    match digitsToNat? d, monthNumber (m.map asciiLower), digitsToNat? y with
    | some dn, some mn, some yn =>
      if d.length ≤ 2 ∧ y.length = 4 ∧ 1 ≤ yn ∧ 1 ≤ dn ∧ dn ≤ daysInMonth yn mn
      then Except.ok ⟨yn, mn, dn⟩
      else Except.error (PyError.dateParseError t)
    | _, _, _ => Except.error (PyError.dateParseError t)
  | _ => Except.error (PyError.dateParseError t)

/-- The CompanyType enumeration (source lines 40-71). -/
inductive CompanyType where
  | ASSURANCE_COMPANY
  | CHARITABLE_INCORPORATED_ORGANISATION
  | CONVERTED_CLOSED
  | CREDIT_UNION_NORTHERN_IRELAND
  | EUROPEAN_ECONOMIC_INTEREST_GROUPING
  | EUROPEAN_PUBLIC_LIMITED_LIABILITY_COMPANY
  | FURTHER_EDUCATION_OR_SIXTH_FORM_COLLEGE_CORPORATION
  | INDUSTRIAL_AND_PROVIDENT_SOCIETY
  | INVESTMENT_COMPANY_WITH_VARIABLE_CAPITAL
  | LIMITED_LIABILITY_PARTNERSHIP
  | LIMITED_PARTNERSHIP
  | NORTHERN_IRELAND_COMPANY
  | OLD_PUBLIC_COMPANY
  | OVERSEAS_COMPANY
  | OVERSEAS_ENTITY
  | PRIVATE_LIMITED_BY_GUARANTEE_WITHOUT_SHARE_CAPITAL
  | PRIVATE_LIMITED_COMPANY
  | PRIVATE_LIMITED_COMPANY_BY_GUARANTEE_WITHOUT_SHARE_CAPITAL
  | PRIVATE_LIMITED_COMPANY_EXEMPTION
  | PRIVATE_UNLIMITED_COMPANY
  | PRIVATE_UNLIMITED_COMPANY_WITHOUT_SHARE_CAPITAL
  | PROTECTED_CELL_COMPANY
  | PUBLIC_LIMITED_COMPANY
  | REGISTERED_SOCIETY
  | ROYAL_CHARTER_COMPANY
  | SCOTTISH_CHARITABLE_INCORPORATED_ORGANISATION
  | SCOTTISH_QUALIFYING_PARTNERSHIP
  | UK_ESTABLISHMENT_COMPANY
  | UNREGISTERED_COMPANY
deriving Repr, DecidableEq

/-- The display string (Enum value) of each CompanyType member. -/
def CompanyType.value : CompanyType → List Char
  | ASSURANCE_COMPANY => pystr "Assurance company"
  | CHARITABLE_INCORPORATED_ORGANISATION => pystr "Charitable incorporated organisation"
  | CONVERTED_CLOSED => pystr "Converted / closed"
  | CREDIT_UNION_NORTHERN_IRELAND => pystr "Credit union (Northern Ireland)"
  | EUROPEAN_ECONOMIC_INTEREST_GROUPING => pystr "European Economic Interest Grouping (EEIG)"
  | EUROPEAN_PUBLIC_LIMITED_LIABILITY_COMPANY => pystr "European public limited liability company (SE)"
  | FURTHER_EDUCATION_OR_SIXTH_FORM_COLLEGE_CORPORATION => pystr "Further education or sixth form college corporation"
  | INDUSTRIAL_AND_PROVIDENT_SOCIETY => pystr "Industrial and Provident society"
  | INVESTMENT_COMPANY_WITH_VARIABLE_CAPITAL => pystr "Investment company with variable capital"
  | LIMITED_LIABILITY_PARTNERSHIP => pystr "Limited liability partnership"
  | LIMITED_PARTNERSHIP => pystr "Limited partnership"
  | NORTHERN_IRELAND_COMPANY => pystr "Northern Ireland company"
  | OLD_PUBLIC_COMPANY => pystr "Old public company"
  | OVERSEAS_COMPANY => pystr "Overseas company"
  | OVERSEAS_ENTITY => pystr "Overseas entity"
  | PRIVATE_LIMITED_BY_GUARANTEE_WITHOUT_SHARE_CAPITAL => pystr "Private limited by guarantee without share capital"
  | PRIVATE_LIMITED_COMPANY => pystr "Private limited company"
  | PRIVATE_LIMITED_COMPANY_BY_GUARANTEE_WITHOUT_SHARE_CAPITAL => pystr "Private Limited Company by guarantee without share capital, use of \x27Limited\x27 exemption"
  | PRIVATE_LIMITED_COMPANY_EXEMPTION => pystr "Private Limited Company, use of \x27Limited\x27 exemption"
  | PRIVATE_UNLIMITED_COMPANY => pystr "Private unlimited company"
  | PRIVATE_UNLIMITED_COMPANY_WITHOUT_SHARE_CAPITAL => pystr "Private unlimited company without share capital"
  | PROTECTED_CELL_COMPANY => pystr "Protected cell company"
  | PUBLIC_LIMITED_COMPANY => pystr "Public limited company"
  | REGISTERED_SOCIETY => pystr "Registered society"
  | ROYAL_CHARTER_COMPANY => pystr "Royal charter company"
  | SCOTTISH_CHARITABLE_INCORPORATED_ORGANISATION => pystr "Scottish charitable incorporated organisation"
  | SCOTTISH_QUALIFYING_PARTNERSHIP => pystr "Scottish qualifying partnership"
  | UK_ESTABLISHMENT_COMPANY => pystr "UK establishment company"
  | UNREGISTERED_COMPANY => pystr "Unregistered company"

/-- The members of CompanyType in declaration order. -/
def CompanyType.members : List CompanyType :=
  [ASSURANCE_COMPANY, CHARITABLE_INCORPORATED_ORGANISATION, CONVERTED_CLOSED,
   CREDIT_UNION_NORTHERN_IRELAND, EUROPEAN_ECONOMIC_INTEREST_GROUPING,
   EUROPEAN_PUBLIC_LIMITED_LIABILITY_COMPANY,
   FURTHER_EDUCATION_OR_SIXTH_FORM_COLLEGE_CORPORATION,
   INDUSTRIAL_AND_PROVIDENT_SOCIETY, INVESTMENT_COMPANY_WITH_VARIABLE_CAPITAL,
   LIMITED_LIABILITY_PARTNERSHIP, LIMITED_PARTNERSHIP, NORTHERN_IRELAND_COMPANY,
   OLD_PUBLIC_COMPANY, OVERSEAS_COMPANY, OVERSEAS_ENTITY,
   PRIVATE_LIMITED_BY_GUARANTEE_WITHOUT_SHARE_CAPITAL, PRIVATE_LIMITED_COMPANY,
   PRIVATE_LIMITED_COMPANY_BY_GUARANTEE_WITHOUT_SHARE_CAPITAL,
   PRIVATE_LIMITED_COMPANY_EXEMPTION, PRIVATE_UNLIMITED_COMPANY,
   PRIVATE_UNLIMITED_COMPANY_WITHOUT_SHARE_CAPITAL, PROTECTED_CELL_COMPANY,
   PUBLIC_LIMITED_COMPANY, REGISTERED_SOCIETY, ROYAL_CHARTER_COMPANY,
   SCOTTISH_CHARITABLE_INCORPORATED_ORGANISATION, SCOTTISH_QUALIFYING_PARTNERSHIP,
   UK_ESTABLISHMENT_COMPANY, UNREGISTERED_COMPANY]

/-- Python CompanyType(v): the member whose value equals v, scanning members
in declaration order; none models the ValueError raised on no match. The
source (lines 193-194) follows the constructor with a name lookup,
CompanyType[CompanyType(v).name], which is the identity on the member. -/
def CompanyType.fromValue (v : List Char) : Option CompanyType :=
  CompanyType.members.find? (fun t => t.value == v)

/-- The CompanySubType enumeration (source lines 74-77). -/
inductive CompanySubType where
  | COMMUNITY_INTEREST_COMPANY
  | PRIVATE_FUND_LIMITED_PARTNERSHIP
deriving Repr, DecidableEq

/-- The display string (Enum value) of each CompanySubType member. -/
def CompanySubType.value : CompanySubType → List Char
  | COMMUNITY_INTEREST_COMPANY => pystr "Community Interest Company (CIC)"
  | PRIVATE_FUND_LIMITED_PARTNERSHIP => pystr "Private Fund Limited Partnership (PFLP)"

/-- The members of CompanySubType in declaration order. -/
def CompanySubType.members : List CompanySubType :=
  [COMMUNITY_INTEREST_COMPANY, PRIVATE_FUND_LIMITED_PARTNERSHIP]

/-- Python CompanySubType(v); none models the ValueError on no match. -/
def CompanySubType.fromValue (v : List Char) : Option CompanySubType :=
  CompanySubType.members.find? (fun t => t.value == v)

/-- The CompanyStatus enumeration (source lines 80-92). -/
inductive CompanyStatus where
  | ACTIVE
  | DISSOLVED
  | OPEN
  | CLOSED
  | CONVERTED_CLOSED
  | RECEIVERSHIP
  | LIQUIDATION
  | ADMINISTRATION
  | INSOLVENCY_PROCEEDINGS
  | VOLUNTARY_ARRAGEMENT
deriving Repr, DecidableEq

/-- The literal value of each CompanyStatus member, as appended to the URL. -/
def CompanyStatus.value : CompanyStatus → List Char
  | ACTIVE => pystr "active"
  | DISSOLVED => pystr "dissolved"
  | OPEN => pystr "open"
  | CLOSED => pystr "closed"
  | CONVERTED_CLOSED => pystr "converted-closed"
  | RECEIVERSHIP => pystr "receivership"
  | LIQUIDATION => pystr "liquidation"
  | ADMINISTRATION => pystr "administration"
  | INSOLVENCY_PROCEEDINGS => pystr "insolvency-proceedings"
  | VOLUNTARY_ARRAGEMENT => pystr "voluntary-arrangement"

/-- SIC Industry Code Classification (source lines 23-28). The dataclass
annotates code as int but the extractor assigns it the token string, so the
stored value is modelled as a string. -/
structure IndustryCode where
  code : List Char
  description : List Char
deriving Repr, DecidableEq

/-- Previous (legacy) company names (source lines 31-37); declared in the
data model but never populated by the extraction logic. -/
structure PreviousCompanyName where
  name : List Char
  start_period : PyDate
  end_period : PyDate
deriving Repr, DecidableEq

/-- Company Information (source lines 95-129), with the optionality the
extractor actually produces: sub-type, the dates and the two lists can be
None. -/
structure Company where
  primary_name : List Char
  local_registration_number : List Char
  registered_office_address : List Char
  status : CompanyStatus
  company_type : CompanyType
  company_sub_type : Option CompanySubType
  incorporation_date : Option PyDate
  dissolved_date : Option PyDate
  next_statement_date : Option PyDate
  last_statement_date : Option PyDate
  next_accounts_date : Option PyDate
  last_accounts_date : Option PyDate
  industry_codes : Option (List IndustryCode)
  previous_company_names : Option (List PreviousCompanyName)
deriving Repr, DecidableEq

/-- One search result row (tr.govuk-table__row): the text of its link
(a.govuk-link) and of the six list items of its ul.govuk-list, in the fixed
order documented in the source (lines 173-182): type, sub-type,
registration number and incorporation clause, dissolution clause, address,
SIC codes clause. -/
structure ResultRow where
  linkText : List Char
  li1 : List Char
  li2 : List Char
  li3 : List Char
  li4 : List Char
  li5 : List Char
  li6 : List Char
deriving Repr, DecidableEq

/-- The search URL built at source lines 142-147 (for a non-None status):
the base query, then the name with spaces replaced by plus signs when the
name is truthy, then the raw concatenation of the status value. -/
def searchUrl (name : Option (List Char)) (status : CompanyStatus) : List Char :=
  let url := pystr "https://find-and-update.company-information.service.gov.uk/advanced-search/get-results?companyNameIncludes="
  let url := match name with
    | some n => if n.isEmpty then url else url ++ pyReplace n (pystr " ") (pystr "+")
    | none => url
  url ++ pystr "&status=" ++ status.value

/-- The SIC reference lists built at source lines 160-166: scan every table
row; a row with no cells is skipped; otherwise cell 0 is appended to the
code list and cell 1 to the description list, so a row with exactly one
cell raises IndexError. -/
def buildSicLists :
    List (List (List Char)) → Except PyError (List (List Char) × List (List Char))
  | [] => Except.ok ([], [])
  | tds :: rest =>
    match tds with
    | [] => buildSicLists rest
    | [_] => Except.error PyError.indexError
    | c :: d :: _ =>
      match buildSicLists rest with
      | Except.error e => Except.error e
      | Except.ok (cs, ds) => Except.ok (c :: cs, d :: ds)

/-- The per-token description lookup at source lines 222-225: empty string
unless the code occurs in the code list, in which case the description at
the index of its first occurrence. The two lists always have equal length
when buildSicLists succeeds, so the index is in range and the getD default
is never used. -/
def sicDescFor (sic_code_list sic_desc_list : List (List Char)) (sic_code : List Char) :
    List Char :=
  match sic_code_list.indexOf? sic_code with
  | some i => sic_desc_list.getD i []
  | none => []

/-- The industry-code extraction at source lines 218-232: an empty sixth
item yields None; otherwise the segment at index 1 of the split on " - "
(IndexError when the item has no " - ") is split on ", " and each token
becomes an IndustryCode with the looked-up description. -/
def extract_industry_codes (sic_code_list sic_desc_list : List (List Char))
    (li6 : List Char) : Except PyError (Option (List IndustryCode)) :=
  if li6.isEmpty then Except.ok none
  else
    match (pySplit (pystr " - ") li6)[1]? with
    | none => Except.error PyError.indexError
    | some seg =>
      Except.ok (some ((pySplit (pystr ", ") seg).map
        (fun tok => { code := tok, description := sicDescFor sic_code_list sic_desc_list tok })))

/-- The sub-type extraction at source lines 196-200: an empty second item
yields None, otherwise the CompanySubType constructor is applied (raising
on an unknown value). -/
def subTypeOf (li2 : List Char) : Except PyError (Option CompanySubType) :=
  if li2.isEmpty then Except.ok none
  else
    match CompanySubType.fromValue li2 with
    | some t => Except.ok (some t)
    | none => Except.error (PyError.unknownEnumValue li2)

/-- The incorporation-date extraction at source lines 202-207: when the
third item contains " on ", parse the segment at index 1 of the split on
" on " with strptime; otherwise None. -/
def incorporationDateOf (li3 : List Char) : Except PyError (Option PyDate) :=
  if pyContains (pystr " on ") li3 then
    match strptime_d_B_Y ((pySplit (pystr " on ") li3).getD 1 []) with
    | Except.ok d => Except.ok (some d)
    | Except.error e => Except.error e
  else Except.ok none

/-- The dissolved-date extraction at source lines 209-214: the same rule as
the incorporation date, applied to the fourth item. -/
def dissolvedDateOf (li4 : List Char) : Except PyError (Option PyDate) :=
  if pyContains (pystr " on ") li4 then
    match strptime_d_B_Y ((pySplit (pystr " on ") li4).getD 1 []) with
    | Except.ok d => Except.ok (some d)
    | Except.error e => Except.error e
  else Except.ok none

/-- The body of the row loop for a row that passed the registration-number
filter (source lines 191-236): each field in statement order, propagating
the first raised error; the Company is built with the call's status and
with None for the four statement and accounts dates and for
previous_company_names. The registration number is the text before the
first " - " of the third item (source line 184, recomputed here since it
is a pure function of the row). -/
def extractCompany (sic_code_list sic_desc_list : List (List Char))
    (status : CompanyStatus) (row : ResultRow) : Except PyError Company :=
  let local_registration_number := (pySplit (pystr " - ") row.li3).headD []
  let primary_name := (pySplit (pystr "(") row.linkText).headD []
  match CompanyType.fromValue row.li1 with
  | none => Except.error (PyError.unknownEnumValue row.li1)
  | some company_type =>
    match subTypeOf row.li2 with
    | Except.error e => Except.error e
    | Except.ok company_sub_type =>
      match incorporationDateOf row.li3 with
      | Except.error e => Except.error e
      | Except.ok incorporation_date =>
        match dissolvedDateOf row.li4 with
        | Except.error e => Except.error e
        | Except.ok dissolved_date =>
          let registered_office_address := row.li5
          match extract_industry_codes sic_code_list sic_desc_list row.li6 with
          | Except.error e => Except.error e
          | Except.ok industry_codes =>
            Except.ok
              { primary_name := primary_name
                local_registration_number := local_registration_number
                registered_office_address := registered_office_address
                status := status
                company_type := company_type
                company_sub_type := company_sub_type
                incorporation_date := incorporation_date
                dissolved_date := dissolved_date
                next_statement_date := none
                last_statement_date := none
                next_accounts_date := none
                last_accounts_date := none
                industry_codes := industry_codes
                previous_company_names := none }

/-- The row loop (source lines 168-236): for each row, extract the
registration number (line 184), test the filter condition of lines 186-190
(in Python, and binds tighter than or, so the condition is: either a
registration number was supplied and is a substring of the extracted one,
or none was supplied), and when it holds extract the Company and append
it; a row that fails the filter is skipped without any further parsing. -/
def processRows (sic_code_list sic_desc_list : List (List Char))
    (registration_number : Option (List Char)) (status : CompanyStatus) :
    List ResultRow → Except PyError (List Company)
  | [] => Except.ok []
  | row :: rest =>
    let local_registration_number := (pySplit (pystr " - ") row.li3).headD []
    let keep := match registration_number with
      | some r => pyContains r local_registration_number
      | none => true
    if keep then
      match extractCompany sic_code_list sic_desc_list status row with
      | Except.error e => Except.error e
      | Except.ok c =>
        match processRows sic_code_list sic_desc_list registration_number status rest with
        | Except.error e => Except.error e
        | Except.ok cs => Except.ok (c :: cs)
    else
      processRows sic_code_list sic_desc_list registration_number status rest

/-- search_companies (source lines 132-238) over the fetched page contents:
resultRows is the list of result rows of the search page and sicRows the
list of table rows (each a list of cell texts) of the SIC reference page.
Building the URL dereferences status.value, so an explicit None status
raises AttributeError at once (line 147); then the SIC lists are built and
the rows processed in page order. The returned pair is the built search
URL (the observable outbound request) and the extracted companies. The
Python default for status is CompanyStatus.ACTIVE. -/
def search_companies (resultRows : List ResultRow)
    (sicRows : List (List (List Char)))
    (name registration_number : Option (List Char))
    (status : Option CompanyStatus) :
    Except PyError (List Char × List Company) :=
  match status with
  | none => Except.error PyError.noneAttrError
  | some st =>
    let url := searchUrl name st
    match buildSicLists sicRows with
    | Except.error e => Except.error e
    | Except.ok (sic_code_list, sic_desc_list) =>
      match processRows sic_code_list sic_desc_list registration_number st resultRows with
      | Except.error e => Except.error e
      | Except.ok cs => Except.ok (url, cs)

def rowC1 : ResultRow :=
  { linkText := pystr "Good Ltd"
    li1 := pystr "Private limited company"
    li2 := []
    li3 := pystr "07850377 - Incorporated on 16 November 2011"
    li4 := []
    li5 := pystr "12 New Street, Huddersfield, England HD1 2AR"
    li6 := [] }

def companyC1 : Company :=
  { primary_name := pystr "Good Ltd"
    local_registration_number := pystr "07850377"
    registered_office_address := pystr "12 New Street, Huddersfield, England HD1 2AR"
    status := CompanyStatus.ACTIVE
    company_type := CompanyType.PRIVATE_LIMITED_COMPANY
    company_sub_type := none
    incorporation_date := some ⟨2011, 11, 16⟩
    dissolved_date := none
    next_statement_date := none
    last_statement_date := none
    next_accounts_date := none
    last_accounts_date := none
    industry_codes := none
    previous_company_names := none }

def rowBogusType : ResultRow :=
  { linkText := pystr "Bogus Ltd"
    li1 := pystr "Bogus type"
    li2 := []
    li3 := pystr "070001 - Incorporated on 16 November 2011"
    li4 := []
    li5 := pystr "somewhere"
    li6 := [] }

def rowEmptyLi3 : ResultRow :=
  { linkText := pystr "Nameless"
    li1 := pystr "Private limited company"
    li2 := []
    li3 := []
    li4 := []
    li5 := []
    li6 := [] }

def companyEmptyLrn : Company :=
  { primary_name := pystr "Nameless"
    local_registration_number := []
    registered_office_address := []
    status := CompanyStatus.ACTIVE
    company_type := CompanyType.PRIVATE_LIMITED_COMPANY
    company_sub_type := none
    incorporation_date := none
    dissolved_date := none
    next_statement_date := none
    last_statement_date := none
    next_accounts_date := none
    last_accounts_date := none
    industry_codes := none
    previous_company_names := none }

def rowParen : ResultRow :=
  { linkText := pystr "Foo Ltd (dissolved)"
    li1 := pystr "Private limited company"
    li2 := []
    li3 := pystr "07850377 - Incorporated on 16 November 2011"
    li4 := []
    li5 := pystr "somewhere"
    li6 := [] }

def companyParen : Company :=
  { primary_name := pystr "Foo Ltd "
    local_registration_number := pystr "07850377"
    registered_office_address := pystr "somewhere"
    status := CompanyStatus.ACTIVE
    company_type := CompanyType.PRIVATE_LIMITED_COMPANY
    company_sub_type := none
    incorporation_date := some ⟨2011, 11, 16⟩
    dissolved_date := none
    next_statement_date := none
    last_statement_date := none
    next_accounts_date := none
    last_accounts_date := none
    industry_codes := none
    previous_company_names := none }

def rowSicNoDash : ResultRow :=
  { linkText := pystr "Bar Ltd"
    li1 := pystr "Private limited company"
    li2 := []
    li3 := pystr "03334444 - Incorporated on 16 November 2011"
    li4 := []
    li5 := pystr "somewhere"
    li6 := pystr "x" }

def rowSicCodes : ResultRow :=
  { linkText := pystr "Baz Ltd"
    li1 := pystr "Private limited company"
    li2 := []
    li3 := pystr "07850377 - Incorporated on 16 November 2011"
    li4 := []
    li5 := pystr "somewhere"
    li6 := pystr "SIC codes - 78109, 88100" }

def companySic : Company :=
  { primary_name := pystr "Baz Ltd"
    local_registration_number := pystr "07850377"
    registered_office_address := pystr "somewhere"
    status := CompanyStatus.ACTIVE
    company_type := CompanyType.PRIVATE_LIMITED_COMPANY
    company_sub_type := none
    incorporation_date := some ⟨2011, 11, 16⟩
    dissolved_date := none
    next_statement_date := none
    last_statement_date := none
    next_accounts_date := none
    last_accounts_date := none
    industry_codes := some
      [{ code := pystr "78109", description := pystr "Renting and leasing" },
       { code := pystr "88100", description := pystr "Social work activities" }]
    previous_company_names := none }

def companyC1Dissolved : Company :=
  { companyC1 with status := CompanyStatus.DISSOLVED }

theorem pySplitGo_ne_nil : ∀ fuel sep s acc, pySplitGo fuel sep s acc ≠ [] := by
  intro fuel
  induction fuel with
  | zero =>
    intro sep s acc
    cases s <;> simp [pySplitGo]
  | succ n ih =>
    intro sep s acc
    cases s with
    | nil => simp [pySplitGo]
    | cons c rest =>
      unfold pySplitGo
      split
      · simp
      · exact ih sep rest (c :: acc)

theorem pySplit_ne_nil (sep s : List Char) : pySplit sep s ≠ [] := by
  unfold pySplit
  split
  · simp
  · exact pySplitGo_ne_nil _ sep s []

theorem extractCompany_ok (sic_code_list sic_desc_list : List (List Char))
    (st : CompanyStatus) (row : ResultRow) (c : Company)
    (h : extractCompany sic_code_list sic_desc_list st row = Except.ok c) :
    c.primary_name = (pySplit (pystr "(") row.linkText).headD [] ∧
    c.local_registration_number = (pySplit (pystr " - ") row.li3).headD [] ∧
    c.registered_office_address = row.li5 ∧
    c.status = st ∧
    CompanyType.fromValue row.li1 = some c.company_type ∧
    subTypeOf row.li2 = Except.ok c.company_sub_type ∧
    incorporationDateOf row.li3 = Except.ok c.incorporation_date ∧
    dissolvedDateOf row.li4 = Except.ok c.dissolved_date ∧
    extract_industry_codes sic_code_list sic_desc_list row.li6 = Except.ok c.industry_codes ∧
    c.next_statement_date = none ∧ c.last_statement_date = none ∧
    c.next_accounts_date = none ∧ c.last_accounts_date = none ∧
    c.previous_company_names = none := by
  unfold extractCompany at h
  repeat' split at h
  all_goals try exact (Except.noConfusion h)
  injection h with h
  subst h
  simp_all

theorem extractCompany_status (sic_code_list sic_desc_list : List (List Char))
    (st1 st2 : CompanyStatus) (row : ResultRow) :
    extractCompany sic_code_list sic_desc_list st2 row
      = Except.map (fun c => { c with status := st2 })
          (extractCompany sic_code_list sic_desc_list st1 row) := by
  unfold extractCompany
  cases CompanyType.fromValue row.li1 <;>
  cases subTypeOf row.li2 <;>
  cases incorporationDateOf row.li3 <;>
  cases dissolvedDateOf row.li4 <;>
  cases extract_industry_codes sic_code_list sic_desc_list row.li6 <;>
  rfl

theorem processRows_mem (sic_code_list sic_desc_list : List (List Char))
    (rn : Option (List Char)) (st : CompanyStatus) :
    ∀ rows cs, processRows sic_code_list sic_desc_list rn st rows = Except.ok cs →
      ∀ c ∈ cs, ∃ row ∈ rows, extractCompany sic_code_list sic_desc_list st row = Except.ok c := by
  intro rows
  induction rows with
  | nil =>
    intro cs h c hc
    simp only [processRows] at h
    injection h with h
    subst h
    simp at hc
  | cons row rest ih =>
    intro cs h c hc
    simp only [processRows] at h
    split at h
    · split at h
      · exact (Except.noConfusion h)
      · split at h
        · exact (Except.noConfusion h)
        · injection h with h
          subst h
          rcases List.mem_cons.mp hc with hc | hc
          · subst hc
            exact ⟨row, List.mem_cons_self _ _, by assumption⟩
          · rcases ih _ (by assumption) c hc with ⟨r, hr, he⟩
            exact ⟨r, List.mem_cons_of_mem _ hr, he⟩
    · rcases ih _ h c hc with ⟨r, hr, he⟩
      exact ⟨r, List.mem_cons_of_mem _ hr, he⟩

theorem processRows_filter (sic_code_list sic_desc_list : List (List Char))
    (r : List Char) (st : CompanyStatus) :
    ∀ rows, processRows sic_code_list sic_desc_list (some r) st rows
      = processRows sic_code_list sic_desc_list none st
          (rows.filter (fun row => pyContains r ((pySplit (pystr " - ") row.li3).headD []))) := by
  intro rows
  induction rows with
  | nil => rfl
  | cons row rest ih =>
    rw [List.filter_cons]
    cases hk : pyContains r ((pySplit (pystr " - ") row.li3).headD []) with
    | true =>
      simp only [if_pos]
      simp only [processRows, hk, if_true, ih]
    | false =>
      simp only [Bool.false_eq_true, if_neg, not_false_iff]
      simp only [processRows, hk, Bool.false_eq_true, if_false, ih]

theorem processRows_status (sic_code_list sic_desc_list : List (List Char))
    (rn : Option (List Char)) (st1 st2 : CompanyStatus) :
    ∀ rows, processRows sic_code_list sic_desc_list rn st2 rows
      = Except.map (List.map (fun c => { c with status := st2 }))
          (processRows sic_code_list sic_desc_list rn st1 rows) := by
  intro rows
  induction rows with
  | nil => rfl
  | cons row rest ih =>
    simp only [processRows]
    split
    · rw [extractCompany_status sic_code_list sic_desc_list st1 st2 row, ih]
      cases extractCompany sic_code_list sic_desc_list st1 row with
      | error e => rfl
      | ok c =>
        simp only [Except.map]
        cases processRows sic_code_list sic_desc_list rn st1 rest with
        | error e => rfl
        | ok cs => simp only [Except.map, List.map]
    · exact ih

theorem search_companies_ok (rows : List ResultRow) (sicRows : List (List (List Char)))
    (name rn : Option (List Char)) (st : CompanyStatus) (url : List Char)
    (cs : List Company)
    (h : search_companies rows sicRows name rn (some st) = Except.ok (url, cs)) :
    url = searchUrl name st ∧
    ∃ sic_code_list sic_desc_list,
      buildSicLists sicRows = Except.ok (sic_code_list, sic_desc_list) ∧
      processRows sic_code_list sic_desc_list rn st rows = Except.ok cs := by
  simp only [search_companies] at h
  split at h
  · exact (Except.noConfusion h)
  · split at h
    · exact (Except.noConfusion h)
    · injection h with h
      rw [Prod.mk.injEq] at h
      exact ⟨h.1.symm, _, _, by assumption, by rw [← h.2]; assumption⟩

theorem strptime_err (t : List Char) (e : PyError)
    (h : strptime_d_B_Y t = Except.error e) : e = PyError.dateParseError t := by
  unfold strptime_d_B_Y at h
  repeat' split at h
  all_goals first
    | exact (Except.noConfusion h)
    | (injection h with h; exact h.symm)

theorem subTypeOf_err (li2 : List Char) (e : PyError)
    (h : subTypeOf li2 = Except.error e) : e = PyError.unknownEnumValue li2 := by
  unfold subTypeOf at h
  repeat' split at h
  all_goals first
    | exact (Except.noConfusion h)
    | (injection h with h; exact h.symm)

theorem incorporationDateOf_err (li3 : List Char) (e : PyError)
    (h : incorporationDateOf li3 = Except.error e) :
    e = PyError.dateParseError ((pySplit (pystr " on ") li3).getD 1 []) := by
  unfold incorporationDateOf at h
  repeat' split at h
  all_goals first
    | exact (Except.noConfusion h)
    | (injection h with h; subst h; exact strptime_err _ _ (by assumption))

theorem dissolvedDateOf_err (li4 : List Char) (e : PyError)
    (h : dissolvedDateOf li4 = Except.error e) :
    e = PyError.dateParseError ((pySplit (pystr " on ") li4).getD 1 []) := by
  unfold dissolvedDateOf at h
  repeat' split at h
  all_goals first
    | exact (Except.noConfusion h)
    | (injection h with h; subst h; exact strptime_err _ _ (by assumption))

theorem extract_industry_codes_err (sic_code_list sic_desc_list : List (List Char))
    (li6 : List Char) (e : PyError)
    (h : extract_industry_codes sic_code_list sic_desc_list li6 = Except.error e) :
    e = PyError.indexError := by
  unfold extract_industry_codes at h
  repeat' split at h
  all_goals first
    | exact (Except.noConfusion h)
    | (injection h with h; exact h.symm)

theorem extractCompany_err (sic_code_list sic_desc_list : List (List Char))
    (st : CompanyStatus) (row : ResultRow) (e : PyError)
    (h : extractCompany sic_code_list sic_desc_list st row = Except.error e) :
    e ≠ PyError.noneAttrError := by
  unfold extractCompany at h
  repeat' split at h
  all_goals try exact (Except.noConfusion h)
  all_goals (injection h with h; subst h)
  · simp
  · intro hc
    subst hc
    have h2 := subTypeOf_err _ _ (by assumption)
    exact absurd h2 (by simp)
  · intro hc
    subst hc
    have h2 := incorporationDateOf_err _ _ (by assumption)
    exact absurd h2 (by simp)
  · intro hc
    subst hc
    have h2 := dissolvedDateOf_err _ _ (by assumption)
    exact absurd h2 (by simp)
  · intro hc
    subst hc
    have h2 := extract_industry_codes_err _ _ _ _ (by assumption)
    exact absurd h2 (by simp)

theorem buildSicLists_err (sicRows : List (List (List Char))) (e : PyError)
    (h : buildSicLists sicRows = Except.error e) : e = PyError.indexError := by
  induction sicRows with
  | nil => exact (Except.noConfusion h)
  | cons tds rest ih =>
    unfold buildSicLists at h
    repeat' split at h
    all_goals first
      | exact (Except.noConfusion h)
      | (injection h with h; exact h.symm)
      | exact ih h
      | (injection h with h; subst h; exact ih (by assumption))

theorem processRows_err (sic_code_list sic_desc_list : List (List Char))
    (rn : Option (List Char)) (st : CompanyStatus) :
    ∀ rows e, processRows sic_code_list sic_desc_list rn st rows = Except.error e →
      e ≠ PyError.noneAttrError := by
  intro rows
  induction rows with
  | nil =>
    intro e h
    exact (Except.noConfusion h)
  | cons row rest ih =>
    intro e h
    simp only [processRows] at h
    split at h
    · split at h
      · injection h with h
        subst h
        exact extractCompany_err _ _ _ _ _ (by assumption)
      · split at h
        · injection h with h
          subst h
          exact ih _ (by assumption)
        · exact (Except.noConfusion h)
    · exact ih _ h

theorem map_ne_nil_of_ne_nil {α β : Type} (f : α → β) (l : List α) (h : l ≠ []) :
    l.map f ≠ [] := by
  cases l with
  | nil => exact absurd rfl h
  | cons a as => simp

/-- C1: for every row whose third list item is
"07850377 - Incorporated on 16 November 2011", search_companies extracts
local_registration_number "07850377" (the text before the first " - ") and
incorporation_date 2011-11-16, parsed from the text after " on " in
day-month-year textual format. -/
theorem C1_row_regno_and_incorporation (rows : List ResultRow)
    (sicRows : List (List (List Char))) (name rn : Option (List Char))
    (st : CompanyStatus) (url : List Char) (cs : List Company)
    (hrows : ∀ row ∈ rows, row.li3 = pystr "07850377 - Incorporated on 16 November 2011")
    (h : search_companies rows sicRows name rn (some st) = Except.ok (url, cs)) :
    ∀ c ∈ cs, c.local_registration_number = pystr "07850377" ∧
      c.incorporation_date = some ⟨2011, 11, 16⟩ := by
  intro c hc
  rcases search_companies_ok _ _ _ _ _ _ _ h with ⟨-, codes, descs, -, hproc⟩
  rcases processRows_mem _ _ _ _ _ _ hproc c hc with ⟨row, hrow, hext⟩
  rcases extractCompany_ok _ _ _ _ _ hext with ⟨-, hlrn, -, -, -, -, hinc, -⟩
  rw [hrows row hrow] at hlrn hinc
  constructor
  · rw [hlrn]
    decide
  · have hconc : incorporationDateOf (pystr "07850377 - Incorporated on 16 November 2011")
        = Except.ok (some ⟨2011, 11, 16⟩) := by decide
    rw [hconc] at hinc
    injection hinc with h2
    exact h2.symm

/-- C1 witness: a concrete successful search on such a row. -/
theorem C1_witness :
    companyC1.local_registration_number = pystr "07850377" ∧
    companyC1.incorporation_date = some ⟨2011, 11, 16⟩ :=
  C1_row_regno_and_incorporation [rowC1] [] none none CompanyStatus.ACTIVE
    (searchUrl none CompanyStatus.ACTIVE) [companyC1]
    (by decide) (by decide) companyC1 (List.mem_cons_self _ _)

/-- C2 counterexample: the claim says a row failing the registration-number
filter is nonetheless fully parsed, so a parse/enum failure in such a row
still surfaces. On a row whose company type is unrecognized and whose
registration number "070001" does not contain "078", the call with
registration_number "078" succeeds with an empty result (the row is skipped
before any parsing), while the same page with no registration_number raises
the enum failure: the failure does not surface in the filtered call. -/
theorem C2_counterexample :
    search_companies [rowBogusType] [] none (some (pystr "078"))
        (some CompanyStatus.ACTIVE)
      = Except.ok (searchUrl none CompanyStatus.ACTIVE, []) ∧
    search_companies [rowBogusType] [] none none (some CompanyStatus.ACTIVE)
      = Except.error (PyError.unknownEnumValue (pystr "Bogus type")) :=
  ⟨by decide, by decide⟩

/-- C2 amended: with a registration_number argument, the result is exactly
the result of the same search over only those rows whose extracted
registration number contains the argument as a (case-sensitive, partial)
substring; the filter is applied right after extracting the registration
number and before type/date parsing, so excluded rows are not parsed at
all and their exclusion has no other effect on the result. -/
theorem C2_filter_before_parsing (rows : List ResultRow)
    (sicRows : List (List (List Char))) (name : Option (List Char))
    (r : List Char) (st : CompanyStatus) :
    search_companies rows sicRows name (some r) (some st)
      = search_companies
          (rows.filter (fun row => pyContains r ((pySplit (pystr " - ") row.li3).headD [])))
          sicRows name none (some st) := by
  unfold search_companies
  cases buildSicLists sicRows with
  | error e => rfl
  | ok p =>
    cases p with
    | mk codes descs =>
      exact congrArg
        (fun x => match x with
          | Except.error e => Except.error e
          | Except.ok cs => Except.ok (searchUrl name st, cs))
        (processRows_filter codes descs r st rows)

/-- C3 counterexample: a parsed page whose row has an empty third list item
produces a Company with an empty local_registration_number, so the claimed
invariant fails on that page. -/
theorem C3_counterexample :
    search_companies [rowEmptyLi3] [] none none (some CompanyStatus.ACTIVE)
      = Except.ok (searchUrl none CompanyStatus.ACTIVE, [companyEmptyLrn]) ∧
    companyEmptyLrn.local_registration_number = [] :=
  ⟨by decide, rfl⟩

/-- C3 amended: every Company in the result has a non-empty primary_name
and a non-empty local_registration_number provided every row of the page
has a non-empty segment before the first "(" of its link text and a
non-empty segment before the first " - " of its third list item; without
that proviso either field can be empty. -/
theorem C3_nonempty_fields (rows : List ResultRow)
    (sicRows : List (List (List Char))) (name rn : Option (List Char))
    (st : CompanyStatus) (url : List Char) (cs : List Company)
    (hrows : ∀ row ∈ rows, (pySplit (pystr "(") row.linkText).headD [] ≠ [] ∧
        (pySplit (pystr " - ") row.li3).headD [] ≠ [])
    (h : search_companies rows sicRows name rn (some st) = Except.ok (url, cs)) :
    ∀ c ∈ cs, c.primary_name ≠ [] ∧ c.local_registration_number ≠ [] := by
  intro c hc
  rcases search_companies_ok _ _ _ _ _ _ _ h with ⟨-, codes, descs, -, hproc⟩
  rcases processRows_mem _ _ _ _ _ _ hproc c hc with ⟨row, hrow, hext⟩
  rcases extractCompany_ok _ _ _ _ _ hext with ⟨hpn, hlrn, -⟩
  rcases hrows row hrow with ⟨h1, h2⟩
  exact ⟨by rw [hpn]; exact h1, by rw [hlrn]; exact h2⟩

/-- C3 witness: a concrete well-formed page. -/
theorem C3_witness :
    companyC1.primary_name ≠ [] ∧ companyC1.local_registration_number ≠ [] :=
  C3_nonempty_fields [rowC1] [] none none CompanyStatus.ACTIVE
    (searchUrl none CompanyStatus.ACTIVE) [companyC1]
    (by decide) (by decide) companyC1 (List.mem_cons_self _ _)

/-- C4 counterexample: the link text "Foo Ltd (dissolved)" yields
primary_name "Foo Ltd " with a trailing space, not the trimmed "Foo Ltd"
the claim states. -/
theorem C4_counterexample :
    Except.map (fun p => p.2.map Company.primary_name)
        (search_companies [rowParen] [] none none (some CompanyStatus.ACTIVE))
      = Except.ok [pystr "Foo Ltd "] ∧
    pystr "Foo Ltd " ≠ pystr "Foo Ltd" :=
  ⟨by decide, by decide⟩

/-- C4 amended: primary_name equals the row link text truncated at the
first literal "(" with no trimming, so surrounding whitespace is kept. -/
theorem C4_primary_name_untrimmed (sic_code_list sic_desc_list : List (List Char))
    (st : CompanyStatus) (row : ResultRow) (c : Company)
    (h : extractCompany sic_code_list sic_desc_list st row = Except.ok c) :
    c.primary_name = (pySplit (pystr "(") row.linkText).headD [] :=
  (extractCompany_ok _ _ _ _ _ h).1

/-- C4 witness: the concrete parenthesised link text. -/
theorem C4_witness :
    companyParen.primary_name = (pySplit (pystr "(") rowParen.linkText).headD [] :=
  C4_primary_name_untrimmed [] [] CompanyStatus.ACTIVE rowParen companyParen (by decide)

/-- C5 counterexample: the claim says any non-empty sixth item is split
into industry codes; a non-empty sixth item "x" with no " - " makes the
whole search raise IndexError instead. -/
theorem C5_counterexample :
    search_companies [rowSicNoDash] [] none none (some CompanyStatus.ACTIVE)
      = Except.error PyError.indexError := by decide

/-- C5 amended: an empty sixth item yields industry_codes none and a
non-empty one is handled through the split on " - ": the codes come from
the segment at index 1 of that split (the text between the first and
second " - ", not all text after the first), split on ", ", one
IndustryCode per token in page order with the looked-up description
(empty when absent from the mapping); the resulting list is never empty;
and a non-empty sixth item with no " - " at all makes extraction fail
with IndexError instead of producing a Company. -/
theorem C5_industry_codes (sic_code_list sic_desc_list : List (List Char))
    (st : CompanyStatus) (row : ResultRow) :
    (∀ c, extractCompany sic_code_list sic_desc_list st row = Except.ok c →
        (row.li6 = [] → c.industry_codes = none) ∧
        (∀ seg, (pySplit (pystr " - ") row.li6)[1]? = some seg →
            c.industry_codes = some ((pySplit (pystr ", ") seg).map
              (fun tok => { code := tok
                            description := sicDescFor sic_code_list sic_desc_list tok }))) ∧
        c.industry_codes ≠ some []) ∧
    (row.li6 ≠ [] → (pySplit (pystr " - ") row.li6)[1]? = none →
        ∀ c, extractCompany sic_code_list sic_desc_list st row ≠ Except.ok c) := by
  constructor
  · intro c h
    have hic := (extractCompany_ok _ _ _ _ _ h).2.2.2.2.2.2.2.2.1
    unfold extract_industry_codes at hic
    refine ⟨?_, ?_, ?_⟩
    · intro h6
      rw [h6] at hic
      simp only [List.isEmpty_nil, if_true] at hic
      injection hic with hic
      exact hic.symm
    · intro seg hseg
      by_cases h6 : row.li6.isEmpty
      · rw [List.isEmpty_iff.mp h6] at hseg
        have hnil : (pySplit (pystr " - ") ([] : List Char))[1]? = none := by decide
        rw [hnil] at hseg
        exact (Option.noConfusion hseg)
      · rw [if_neg h6, hseg] at hic
        injection hic with hic
        exact hic.symm
    · by_cases h6 : row.li6.isEmpty
      · rw [if_pos h6] at hic
        injection hic with hic
        rw [← hic]
        simp
      · rw [if_neg h6] at hic
        cases hseg : (pySplit (pystr " - ") row.li6)[1]? with
        | none =>
          rw [hseg] at hic
          exact (Except.noConfusion hic)
        | some seg =>
          rw [hseg] at hic
          injection hic with hic
          rw [← hic]
          intro hcontra
          injection hcontra with hcontra
          exact map_ne_nil_of_ne_nil _ _ (pySplit_ne_nil _ _) hcontra
  · intro h6 hnone c h
    have hic := (extractCompany_ok _ _ _ _ _ h).2.2.2.2.2.2.2.2.1
    unfold extract_industry_codes at hic
    rw [if_neg (by simpa [List.isEmpty_iff] using h6), hnone] at hic
    exact (Except.noConfusion hic)

/-- C5 witness: the spec example "SIC codes - 78109, 88100" with a mapping
holding both codes. -/
theorem C5_witness :
    companySic.industry_codes
      = some ((pySplit (pystr ", ") (pystr "78109, 88100")).map
          (fun tok => { code := tok
                        description := sicDescFor
                          [pystr "78109", pystr "88100"]
                          [pystr "Renting and leasing", pystr "Social work activities"] tok })) :=
  (((C5_industry_codes [pystr "78109", pystr "88100"]
      [pystr "Renting and leasing", pystr "Social work activities"]
      CompanyStatus.ACTIVE rowSicCodes).1 companySic (by decide)).2.1)
    (pystr "78109, 88100") (by decide)

/-- C6 counterexample: the claim says a reference-table row with fewer than
two cells contributes nothing and causes no failure; a row with exactly
one cell makes the whole search raise IndexError. -/
theorem C6_counterexample :
    search_companies [] [[pystr "56101"]] none none (some CompanyStatus.ACTIVE)
      = Except.error PyError.indexError := by decide

/-- C6 amended: scanning the reference table takes, from every row with at
least one cell, cell 0 as the code and cell 1 as the description (extra
cells ignored, rows with no cells contribute nothing); a row with exactly
one cell raises IndexError instead of being skipped. When no row has
exactly one cell the builder succeeds and returns exactly the two parallel
lists; duplicate codes are kept and the per-code lookup resolves to the
first occurrence. -/
theorem C6_sic_builder (sicRows : List (List (List Char)))
    (hrows : ∀ tds ∈ sicRows, tds.length ≠ 1) :
    buildSicLists sicRows = Except.ok
      ((sicRows.filter (fun tds => !tds.isEmpty)).map (fun tds => tds.headD []),
       (sicRows.filter (fun tds => !tds.isEmpty)).map (fun tds => tds.getD 1 [])) := by
  induction sicRows with
  | nil => rfl
  | cons tds rest ih =>
    have hrest := ih (fun t ht => hrows t (List.mem_cons_of_mem _ ht))
    cases tds with
    | nil =>
      simpa [buildSicLists, List.filter_cons] using hrest
    | cons c more =>
      cases more with
      | nil => exact absurd rfl (hrows [c] (List.mem_cons_self _ _))
      | cons d more2 =>
        simp [buildSicLists, List.filter_cons, hrest]

/-- C6 witness: a table with a two-cell row, an empty row and a three-cell
row. -/
theorem C6_witness :
    buildSicLists
        [[pystr "78109", pystr "Renting and leasing"], [],
         [pystr "88100", pystr "Social work activities", pystr "extra"]]
      = Except.ok ([pystr "78109", pystr "88100"],
                   [pystr "Renting and leasing", pystr "Social work activities"]) := by
  rw [C6_sic_builder
    [[pystr "78109", pystr "Renting and leasing"], [],
     [pystr "88100", pystr "Social work activities", pystr "extra"]] (by decide)]
  decide

/-- C7: a company-type or sub-type display string that matches no
enumeration value makes row extraction fail with the distinct
unknownEnumValue error carrying the offending string (the ValueError the
Enum constructor raises), never a silent default and never an unrelated
error. -/
theorem C7_unknown_enum (sic_code_list sic_desc_list : List (List Char))
    (st : CompanyStatus) (row : ResultRow) :
    (CompanyType.fromValue row.li1 = none →
        extractCompany sic_code_list sic_desc_list st row
          = Except.error (PyError.unknownEnumValue row.li1)) ∧
    (∀ t, CompanyType.fromValue row.li1 = some t → row.li2 ≠ [] →
        CompanySubType.fromValue row.li2 = none →
        extractCompany sic_code_list sic_desc_list st row
          = Except.error (PyError.unknownEnumValue row.li2)) := by
  constructor
  · intro h1
    unfold extractCompany
    rw [h1]
  · intro t h1 h2 h3
    have hsub : subTypeOf row.li2 = Except.error (PyError.unknownEnumValue row.li2) := by
      unfold subTypeOf
      rw [if_neg (by simpa [List.isEmpty_iff] using h2), h3]
    unfold extractCompany
    rw [h1, hsub]

/-- C7 witness: the unrecognized display string "Bogus type". -/
theorem C7_witness :
    extractCompany [] [] CompanyStatus.ACTIVE rowBogusType
      = Except.error (PyError.unknownEnumValue (pystr "Bogus type")) :=
  (C7_unknown_enum [] [] CompanyStatus.ACTIVE rowBogusType).1 (by decide)

/-- C8: dissolved_date (fourth item) and incorporation_date (third item)
follow the same rule: with " on " present the text after it is parsed
("Dissolved on 11 September 2018" gives 2018-09-11, the third-item example
gives 2011-11-16); with " on " absent (including an empty item) the date
is none and no error is raised. -/
theorem C8_date_rule :
    (∀ t, dissolvedDateOf t = incorporationDateOf t) ∧
    dissolvedDateOf (pystr "Dissolved on 11 September 2018")
      = Except.ok (some ⟨2018, 9, 11⟩) ∧
    (∀ t, pyContains (pystr " on ") t = false → dissolvedDateOf t = Except.ok none) ∧
    dissolvedDateOf [] = Except.ok none ∧
    incorporationDateOf (pystr "07850377 - Incorporated on 16 November 2011")
      = Except.ok (some ⟨2011, 11, 16⟩) := by
  refine ⟨fun t => rfl, by decide, ?_, by decide, by decide⟩
  intro t h
  unfold dissolvedDateOf
  rw [h]
  rfl

/-- C8 witness: an address-like item with no " on ". -/
theorem C8_witness : dissolvedDateOf (pystr "12 New Street") = Except.ok none :=
  C8_date_rule.2.2.1 (pystr "12 New Street") (by decide)

/-- C9: every returned Company carries exactly the status argument of the
call; the status rendered on the page is never parsed, so two calls over
the same page contents with different statuses differ in every returned
Company's status field and in nothing else derived from the page. -/
theorem C9_status_argument (rows : List ResultRow)
    (sicRows : List (List (List Char))) (name rn : Option (List Char))
    (s1 s2 : CompanyStatus) :
    Except.map Prod.snd (search_companies rows sicRows name rn (some s2))
      = Except.map (List.map (fun c => { c with status := s2 }))
          (Except.map Prod.snd (search_companies rows sicRows name rn (some s1))) ∧
    (∀ url cs, search_companies rows sicRows name rn (some s1) = Except.ok (url, cs) →
        ∀ c ∈ cs, c.status = s1) := by
  constructor
  · unfold search_companies
    cases buildSicLists sicRows with
    | error e => rfl
    | ok p =>
      cases p with
      | mk codes descs =>
        show Except.map Prod.snd
            (match processRows codes descs rn s2 rows with
              | Except.error e => Except.error e
              | Except.ok cs => Except.ok (searchUrl name s2, cs))
          = Except.map (List.map (fun c => { c with status := s2 }))
              (Except.map Prod.snd
                (match processRows codes descs rn s1 rows with
                  | Except.error e => Except.error e
                  | Except.ok cs => Except.ok (searchUrl name s1, cs)))
        rw [processRows_status codes descs rn s1 s2 rows]
        cases processRows codes descs rn s1 rows with
        | error e => rfl
        | ok cs => rfl
  · intro url cs h c hc
    rcases search_companies_ok _ _ _ _ _ _ _ h with ⟨-, codes, descs, -, hproc⟩
    rcases processRows_mem _ _ _ _ _ _ hproc c hc with ⟨row, -, hext⟩
    exact (extractCompany_ok _ _ _ _ _ hext).2.2.2.1

/-- C9 witness: a concrete search whose every Company carries the
DISSOLVED status argument. -/
theorem C9_witness : companyC1Dissolved.status = CompanyStatus.DISSOLVED :=
  (C9_status_argument [rowC1] [] none none CompanyStatus.DISSOLVED CompanyStatus.ACTIVE).2
    (searchUrl none CompanyStatus.DISSOLVED) [companyC1Dissolved]
    (by decide) companyC1Dissolved (List.mem_cons_self _ _)

/-- C10: an explicit None status makes search_companies fail with the
AttributeError from dereferencing status.value while building the URL,
uniformly in the page contents (so before any row is processed); and no
call with a present status ever fails with that error. The ACTIVE default
applies only when the argument is omitted, which the embedding renders by
passing some ACTIVE. -/
theorem C10_none_status (rows : List ResultRow)
    (sicRows : List (List (List Char))) (name rn : Option (List Char)) :
    search_companies rows sicRows name rn none = Except.error PyError.noneAttrError ∧
    (∀ st e, search_companies rows sicRows name rn (some st) = Except.error e →
        e ≠ PyError.noneAttrError) := by
  constructor
  · rfl
  · intro st e h
    simp only [search_companies] at h
    split at h
    · injection h with h
      subst h
      intro hc
      subst hc
      have h2 := buildSicLists_err _ _ (by assumption)
      exact absurd h2 (by simp)
    · split at h
      · injection h with h
        subst h
        intro hc
        subst hc
        have h2 := processRows_err _ _ _ _ _ _ (by assumption)
        exact absurd rfl h2
      · exact (Except.noConfusion h)

/-- C10 witness: a page on which a present status fails with a different,
page-caused error. -/
theorem C10_witness :
    search_companies [] [[pystr "56101"]] none none (some CompanyStatus.ACTIVE)
      = Except.error PyError.indexError ∧
    PyError.indexError ≠ PyError.noneAttrError :=
  ⟨by decide,
   (C10_none_status [] [[pystr "56101"]] none none).2 CompanyStatus.ACTIVE
     PyError.indexError (by decide)⟩
